import Mathlib

/-!
Verification development for the sunnyharvard-hw4 county-health lookup
service.  The repository contains two parallel HTTP implementations of the
same endpoint — a Flask one (`app.py`) and a FastAPI one
(`api/county_data.py`) — plus a CSV bulk importer (`csv_to_sqlite.py`).
This file gives a shallow embedding of the validation / query / response
pipeline of both handlers and of the importer, and proves or refutes the
specification claims about them.

Conventions of the embedding:
* JSON request bodies are modelled by the inductive type `JValue`; a parsed
  JSON object body is a `JObj` (association list, later duplicate key wins,
  as with Python `json` parsing).
* The SQLite tables are modelled as lists of records with `Option String`
  fields (`none` is SQL NULL; the loader creates all columns as TEXT).
* SQL SELECT statements are embedded as pure functions that also return the
  (unchanged) database, making the read-only behaviour of the handlers an
  explicit state-passing fact.
* Python regular-expression and string semantics used by the code
  (`re.match` / `re.fullmatch` of `^\d{5}$`, `str()`, truthiness) are
  embedded directly; `\d` matches any Unicode decimal digit (category Nd).
-/

/-- A JSON value as produced by parsing a request body.  Numbers are
modelled as integers (the payloads relevant to this service carry strings
and integer literals). -/
inductive JValue where
  | null : JValue
  | bool (b : Bool) : JValue
  | num (n : Int) : JValue
  | str (s : String) : JValue
  | arr (xs : List JValue) : JValue
  | obj (kvs : List (String × JValue)) : JValue

/-- A parsed JSON object body: association list of key/value pairs. -/
abbrev JObj := List (String × JValue)

/-- Python `dict.get(k)` on a dict built by JSON parsing: the last binding
of a duplicated key wins, a JSON `null` value is Python `None`, i.e. the
same observable as a missing key for `dict.get`. -/
def pyGet (p : JObj) (k : String) : Option JValue :=
  match p.reverse.find? (fun kv => kv.1 == k) with
  | some kv =>
      match kv.2 with
      | JValue.null => none
      | v => some v
  | none => none

/-- The easter-egg test `data.get("coffee") == "teapot"`: Python equality
of the looked-up object with the string literal.  Only the exact string
compares equal. -/
def isTeapot (v : Option JValue) : Bool :=
  match v with
  | some (JValue.str s) => s == "teapot"
  | _ => false

/-- Python truthiness of a JSON-derived value (`if not x`). -/
def jTruthy (v : JValue) : Bool :=
  match v with
  | JValue.null => false
  | JValue.bool b => b
  | JValue.num n => n != 0
  | JValue.str s => s != ""
  | JValue.arr xs => !xs.isEmpty
  | JValue.obj kvs => !kvs.isEmpty

/-- Truthiness of a `dict.get` result (`None` is falsy). -/
def pyTruthy (v : Option JValue) : Bool :=
  match v with
  | none => false
  | some x => jTruthy x

/-- Comma-space join, as in Python container repr. -/
def joinComma (xs : List String) : String :=
  String.intercalate ", " xs

/-- Python `repr` of a JSON-derived value (used inside container `str()`
conversion and in the Flask measure error message).  String escaping is
not reproduced; no identifier relevant here contains quotes. -/
def pyRepr : JValue → String
  | JValue.null => "None"
  | JValue.bool true => "True"
  | JValue.bool false => "False"
  | JValue.num n => toString n
  | JValue.str s => "\x27" ++ s ++ "\x27"
  | JValue.arr xs => "[" ++ joinComma (xs.attach.map (fun x => pyRepr x.1)) ++ "]"
  | JValue.obj kvs =>
      "\x7b" ++
        joinComma (kvs.attach.map
          (fun kv => "\x27" ++ kv.1.1 ++ "\x27: " ++ pyRepr kv.1.2)) ++ "\x7d"
decreasing_by
  · have h := List.sizeOf_lt_of_mem x.2
    simp only [JValue.arr.sizeOf_spec]
    omega
  · have h := List.sizeOf_lt_of_mem kv.2
    have h2 : sizeOf kv.1.2 < sizeOf kv.1 := by
      cases kv.1
      simp
    simp only [JValue.obj.sizeOf_spec]
    omega

/-- Python `str()` of a JSON-derived value (`str(zip_code)` in
`is_valid_zip`): strings pass through unquoted, other values via their
repr. -/
def pyStr (v : Option JValue) : String :=
  match v with
  | none => "None"
  | some (JValue.str s) => s
  | some x => pyRepr x

/-- Start codepoints of the 10-codepoint runs of Unicode decimal digits
(category Nd), which is what Python's `\d` matches in a `str` pattern. -/
def ndStarts : List Nat :=
  [0x30, 0x660, 0x6F0, 0x7C0, 0x966, 0x9E6, 0xA66, 0xAE6, 0xB66, 0xBE6,
   0xC66, 0xCE6, 0xD66, 0xDE6, 0xE50, 0xED0, 0xF20, 0x1040, 0x1090, 0x17E0,
   0x1810, 0x1946, 0x19D0, 0x1A80, 0x1A90, 0x1B50, 0x1BB0, 0x1C40, 0x1C50,
   0xA620, 0xA8D0, 0xA900, 0xA9D0, 0xA9F0, 0xAA50, 0xABF0, 0xFF10,
   0x104A0, 0x10D30, 0x11066, 0x110F0, 0x11136, 0x111D0, 0x112F0, 0x11450,
   0x114D0, 0x11650, 0x116C0, 0x11730, 0x118E0, 0x11950, 0x11C50, 0x11D50,
   0x11DA0, 0x11F50, 0x16A60, 0x16AC0, 0x16B50, 0x1E140, 0x1E2F0, 0x1E4F0,
   0x1E950, 0x1FBF0]

/-- Python's `\d` character class: any Unicode decimal digit.  The
mathematical alphanumeric block is the one 50-codepoint run. -/
def pyIsDigit (c : Char) : Bool :=
  ndStarts.any (fun s => s ≤ c.toNat && c.toNat < s + 10) ||
    (0x1D7CE ≤ c.toNat && c.toNat < 0x1D7CE + 50)

/-- Python `re.fullmatch(r"^\d{5}$", s)` as used by the FastAPI handler:
the whole string must be exactly five decimal digits. -/
def reFullmatchZip5 (s : String) : Bool :=
  s.data.length == 5 && s.data.all pyIsDigit

/-- Python `re.match(r"^\d{5}$", s)` as used by the Flask handler.  After
the five digits, `$` succeeds at the end of the string or just before a
single trailing newline, so `"12345\n"` also matches. -/
def reMatchZip5 (s : String) : Bool :=
  (s.data.take 5).all pyIsDigit &&
    (s.data.length == 5 || (s.data.length == 6 && s.data.drop 5 == ['\n']))

example : reMatchZip5 "12345\n" = true := by decide
example : reFullmatchZip5 "12345\n" = false := by decide
example : reFullmatchZip5 "02138" = true := by decide
example : reMatchZip5 "1234" = false := by decide
example : pyGet [("coffee", JValue.str "teapot")] "coffee" = some (JValue.str "teapot") := rfl

/-! ## Database model

The two reference tables, as created by `csv_to_sqlite.py` (every column
TEXT, empty CSV cells stored as NULL).  Only the columns the handlers
reference are carried for `zip_county`; `county_health_rankings` carries
its full 14-column schema (SQLite resolves the differently-cased column
names in the queries case-insensitively to these columns). -/

/-- A row of the `zip_county` table (the columns used by the queries). -/
structure ZipCountyRow where
  zip : Option String
  state_abbreviation : Option String
  county : Option String
  county_code : Option String
deriving DecidableEq, Repr

/-- A row of the `county_health_rankings` table. -/
structure CHRRow where
  state : Option String
  county : Option String
  state_code : Option String
  county_code : Option String
  year_span : Option String
  measure_name : Option String
  measure_id : Option String
  numerator : Option String
  denominator : Option String
  raw_value : Option String
  confidence_interval_lower_bound : Option String
  confidence_interval_upper_bound : Option String
  data_release_year : Option String
  fipscode : Option String
deriving DecidableEq, Repr

/-- The reference database consumed by the handlers.  Row lists are in
rowid (insertion) order, which is the order a full table scan returns. -/
structure Db where
  zip_county : List ZipCountyRow
  county_health_rankings : List CHRRow
deriving DecidableEq, Repr

/-- An HTTP response: status code and JSON body. -/
structure Resp where
  status : Nat
  body : JValue

/-- SQL equality of a TEXT column value against a bound TEXT parameter:
NULL compares equal to nothing. -/
def sqlEqParam (col : Option String) (p : String) : Bool :=
  match col with
  | some s => s == p
  | none => false

/-- SQL equality of two TEXT column values (the Flask join condition,
after the identity `CAST(... AS TEXT)` on TEXT operands): NULL on either
side never matches. -/
def sqlEqCols (a b : Option String) : Bool :=
  match a, b with
  | some x, some y => x == y
  | _, _ => false

/-- SQL equality of a TEXT column against a bound Python value.  SQLite
applies the TEXT affinity of the column to the bound value before
comparing, so a string matches by text equality and an integer matches
the text of its decimal form; NULL matches nothing, and the remaining
Python values cannot reach a binding site in these handlers (the earlier
validation rejects them, or the driver raises and the handler answers
500). -/
def sqlEqParamVal (col : Option String) (p : Option JValue) : Bool :=
  match col, p with
  | some s, some (JValue.str t) => s == t
  | some s, some (JValue.num n) => s == toString n
  | _, _ => false

/-- Whitespace skipped by SQLite when casting TEXT to INTEGER. -/
def isSqlSpace (c : Char) : Bool :=
  c = ' ' || c = '\t' || c = '\n' || c = '\x0d' || c = '\x0b' || c = '\x0c'

/-- Accumulate the leading run of ASCII digits into an integer. -/
def digitsVal : List Char → Int → Int
  | c :: cs, acc =>
      if c.isDigit then digitsVal cs (acc * 10 + ((c.toNat - 48 : Nat) : Int))
      else acc
  | [], acc => acc

/-- SQLite `CAST(s AS INTEGER)` on a TEXT value: optional leading
whitespace and sign, then the longest digit prefix; 0 when there is no
digit prefix. -/
def castTextInt (s : String) : Int :=
  match s.data.dropWhile isSqlSpace with
  | '-' :: rest => - digitsVal rest 0
  | '+' :: rest => digitsVal rest 0
  | cs => digitsVal cs 0

/-- Three-way comparison of codepoint lists (SQLite BINARY collation on
UTF-8 TEXT coincides with codepoint order). -/
def cmpChars : List Char → List Char → Ordering
  | [], [] => Ordering.eq
  | [], _ :: _ => Ordering.lt
  | _ :: _, [] => Ordering.gt
  | a :: as, b :: bs =>
      if a.toNat < b.toNat then Ordering.lt
      else if b.toNat < a.toNat then Ordering.gt
      else cmpChars as bs

/-- Three-way comparison of strings in codepoint order. -/
def cmpStr (a b : String) : Ordering := cmpChars a.data b.data

/-- Boolean string order used for Python `sorted` (ascending codepoint
order). -/
def strLeB (a b : String) : Bool :=
  match cmpStr a b with
  | Ordering.gt => false
  | _ => true

/-- SQL ordering on a nullable INTEGER sort key: NULL sorts first under
ASC. -/
def cmpOptInt : Option Int → Option Int → Ordering
  | none, none => Ordering.eq
  | none, some _ => Ordering.lt
  | some _, none => Ordering.gt
  | some a, some b =>
      if a < b then Ordering.lt
      else if b < a then Ordering.gt
      else Ordering.eq

/-- SQL ordering on a nullable TEXT sort key: NULL sorts first under ASC. -/
def cmpOptStr : Option String → Option String → Ordering
  | none, none => Ordering.eq
  | none, some _ => Ordering.lt
  | some _, none => Ordering.gt
  | some a, some b => cmpStr a b

/-- The sort key comparison of the Flask query
`ORDER BY CAST(chr.Data_Release_Year AS INTEGER) ASC, chr.Year_span ASC`. -/
def chrCmp (x y : CHRRow) : Ordering :=
  match cmpOptInt (x.data_release_year.map castTextInt)
      (y.data_release_year.map castTextInt) with
  | Ordering.eq => cmpOptStr x.year_span y.year_span
  | o => o

/-- Non-strict version of `chrCmp`, the relation the Flask result list is
sorted by. -/
def chrLeB (x y : CHRRow) : Bool :=
  match chrCmp x y with
  | Ordering.gt => false
  | _ => true

/-- The relation the Flask query results are sorted by (the Boolean
`chrLeB` as a proposition). -/
def chrLe (x y : CHRRow) : Prop := chrLeB x y = true

instance : DecidableRel chrLe :=
  fun x y => instDecidableEqBool (chrLeB x y) true

example : castTextInt "2012" = 2012 := by decide
example : castTextInt " -41x" = -41 := by decide
example : castTextInt "abc" = 0 := by decide

/-! ## Shared handler pieces -/

/-- The twelve allowed measure names (`ALLOWED_MEASURES` in both
handlers). -/
def ALLOWED_MEASURES : List String :=
  ["Violent crime rate", "Unemployment", "Children in poverty",
   "Diabetic screening", "Mammography screening",
   "Preventable hospital stays", "Uninsured",
   "Sexually transmitted infections", "Physical inactivity",
   "Adult obesity", "Premature Death", "Daily fine particulate matter"]

/-- The membership test `measure_name not in ALLOWED_MEASURES`, negated:
only a string equal to one of the twelve names passes. -/
def measureAllowed (v : Option JValue) : Bool :=
  match v with
  | some (JValue.str s) => ALLOWED_MEASURES.contains s
  | _ => false

/-- An `error`-keyed JSON body. -/
def errObj (msg : String) : JValue :=
  JValue.obj [("error", JValue.str msg)]

/-- A FastAPI `HTTPException` body. -/
def detailObj (msg : String) : JValue :=
  JValue.obj [("detail", JValue.str msg)]

/-- A TEXT column value serialized into a JSON row object (NULL becomes
JSON null, text passes through). -/
def optJson (v : Option String) : JValue :=
  match v with
  | some s => JValue.str s
  | none => JValue.null

/-- HTTP methods relevant to the service. -/
inductive Method where
  | get : Method
  | post : Method
deriving DecidableEq

/-! ## Flask implementation (`app.py`) -/

namespace App

/-- Python `sorted(ALLOWED_MEASURES)` (ascending codepoint order of the
distinct names), interpolated into the invalid-measure error message. -/
def sortedMeasures : List String :=
  List.insertionSort (fun a b => strLeB a b = true) ALLOWED_MEASURES

/-- The f-string body of the invalid-measure 400 error. -/
def measuresError : JValue :=
  errObj ("Invalid \x27measure_name\x27. Choose from: " ++
    pyRepr (JValue.arr (sortedMeasures.map JValue.str)))

/-- `is_valid_zip`: `bool(ZIP_CODE_PATTERN.match(str(zip_code)))`. -/
def is_valid_zip (zip_code : Option JValue) : Bool :=
  reMatchZip5 (pyStr zip_code)

/-- One result row as built by `fetch_data` (fixed lowercase key order of
the dict literal; Flask serialises it as given, which is already
alphabetical). -/
def flaskRowToJson (r : CHRRow) : JValue :=
  JValue.obj
    [("confidence_interval_lower_bound", optJson r.confidence_interval_lower_bound),
     ("confidence_interval_upper_bound", optJson r.confidence_interval_upper_bound),
     ("county", optJson r.county),
     ("county_code", optJson r.county_code),
     ("data_release_year", optJson r.data_release_year),
     ("denominator", optJson r.denominator),
     ("fipscode", optJson r.fipscode),
     ("measure_id", optJson r.measure_id),
     ("measure_name", optJson r.measure_name),
     ("numerator", optJson r.numerator),
     ("raw_value", optJson r.raw_value),
     ("state", optJson r.state),
     ("state_code", optJson r.state_code),
     ("year_span", optJson r.year_span)]

/-- The row multiset produced by the Flask query before ordering:
`FROM county_health_rankings AS chr JOIN zip_county AS z
 ON CAST(chr.fipscode AS TEXT) = CAST(z.county_code AS TEXT)
 WHERE z.zip = ? AND chr.Measure_name = ?`.
Each matching (chr, z) pair contributes one copy of the chr row. -/
def joinRows (d : Db) (zipv m : Option JValue) : List CHRRow :=
  d.county_health_rankings.flatMap (fun r =>
    if sqlEqParamVal r.measure_name m then
      (d.zip_county.filter (fun z =>
        sqlEqParamVal z.zip zipv && sqlEqCols r.fipscode z.county_code)).map
        (fun _ => r)
    else [])

/-- The ordered row list of the Flask query (its
`ORDER BY CAST(chr.Data_Release_Year AS INTEGER) ASC, chr.Year_span ASC`). -/
def orderedRows (d : Db) (zipv m : Option JValue) : List CHRRow :=
  List.insertionSort chrLe (joinRows d zipv m)

/-- `fetch_data`: connects (a missing database file yields `None`), runs
the ordered join and projects each row.  The database state is threaded
and returned untouched: the query only reads. -/
def fetch_data (db : Option Db) (zip_code measure_name : Option JValue) :
    Option (List JValue) × Option Db :=
  match db with
  | none => (none, none)
  | some d => (some ((orderedRows d zip_code measure_name).map flaskRowToJson), some d)

/-- The `POST /county_data` Flask view.  `body = none` models a request
that is not JSON. -/
def county_data (body : Option JObj) (db : Option Db) : Resp × Option Db :=
  match body with
  | none => (⟨400, errObj "Request must be JSON"⟩, db)
  | some data =>
    if isTeapot (pyGet data "coffee") then
      (⟨418, errObj "I\x27m a teapot"⟩, db)
    else
      let zip_code := pyGet data "zip"
      let measure_name := pyGet data "measure_name"
      if !pyTruthy zip_code || !pyTruthy measure_name then
        (⟨400, errObj "Both \x27zip\x27 and \x27measure_name\x27 are required."⟩, db)
      else if !is_valid_zip zip_code then
        (⟨400, errObj "ZIP code must be a 5-digit number."⟩, db)
      else if !measureAllowed measure_name then
        (⟨400, measuresError⟩, db)
      else
        match fetch_data db zip_code measure_name with
        | (none, db2) => (⟨500, errObj "Database error"⟩, db2)
        | (some results, db2) =>
          if results.isEmpty then
            (⟨404, errObj "No data found for given zip and measure_name."⟩, db2)
          else (⟨200, JValue.arr results⟩, db2)

/-- Flask routing of `app.py`: `GET /` is the health view, only POST is
registered on `/county_data` (other method/path combinations fall to the
custom 405/404 error handlers). -/
def dispatch (m : Method) (path : String) (body : Option JObj) (db : Option Db) :
    Resp × Option Db :=
  match m, path with
  | Method.get, "/" => (⟨200, JValue.obj [("ok", JValue.bool true)]⟩, db)
  | Method.post, "/county_data" => county_data body db
  | Method.get, "/county_data" => (⟨405, errObj "Method not allowed"⟩, db)
  | Method.post, "/" => (⟨405, errObj "Method not allowed"⟩, db)
  | _, _ => (⟨404, errObj "Endpoint not found"⟩, db)

end App

/-! ## FastAPI implementation (`api/county_data.py`) -/

namespace Api

/-- Python `sorted(set(...))`: the distinct values in ascending codepoint
order. -/
def sortDedup (l : List String) : List String :=
  (List.insertionSort (fun a b => strLeB a b = true) l).dedup

/-- Python truthiness filter on a TEXT column value
(`if r["..."]`): NULL and the empty string are dropped. -/
def truthyStr (v : Option String) : Option String :=
  match v with
  | some s => if s == "" then none else some s
  | none => none

/-- The zip validation `isinstance(zip_code, str) and ZIP_RE.fullmatch(zip_code)`. -/
def zipOk (v : Option JValue) : Bool :=
  match v with
  | some (JValue.str z) => reFullmatchZip5 z
  | _ => false

/-- The string payload of a validated zip value. -/
def zipStr (v : Option JValue) : String :=
  match v with
  | some (JValue.str z) => z
  | _ => ""

/-- The string payload of a validated measure value. -/
def measureStr (v : Option JValue) : String :=
  match v with
  | some (JValue.str m) => m
  | _ => ""

/-- The zip resolution query
`SELECT zip, state_abbreviation, county, county_code FROM zip_county
 WHERE zip = ?` (a read: the database comes back unchanged). -/
def selectZipCounty (d : Db) (z : String) : List ZipCountyRow × Db :=
  (d.zip_county.filter (fun r => sqlEqParam r.zip z), d)

/-- `states = sorted({r["state_abbreviation"] for r in zc_rows if ...})`. -/
def states (zc : List ZipCountyRow) : List String :=
  sortDedup (zc.filterMap (fun r => truthyStr r.state_abbreviation))

/-- `county_names = sorted({r["county"] for r in zc_rows if ...})`. -/
def countyNames (zc : List ZipCountyRow) : List String :=
  sortDedup (zc.filterMap (fun r => truthyStr r.county))

/-- `codes = [str(r["county_code"]) for r in zc_rows if r["county_code"]]`
(the values are TEXT, so `str` is the identity on them). -/
def codes (zc : List ZipCountyRow) : List String :=
  zc.filterMap (fun r => truthyStr r.county_code)

/-- The last three characters of a county code (`c[-3:]`). -/
def takeRight3 (s : String) : String :=
  String.mk (s.data.drop (s.data.length - 3))

/-- `fips_codes = sorted({c for c in codes if len(c) >= 5})`. -/
def fipsCodes (cs : List String) : List String :=
  sortDedup (cs.filter (fun c => 5 ≤ c.length))

/-- `ccc_codes = sorted({c[-3:] for c in codes if len(c) >= 3})`. -/
def cccCodes (cs : List String) : List String :=
  sortDedup ((cs.filter (fun c => 3 ≤ c.length)).map takeRight3)

/-- Membership of a TEXT column value in a bound `IN (...)` list: NULL
matches nothing. -/
def optMem (v : Option String) (l : List String) : Bool :=
  match v with
  | some s => l.contains s
  | none => false

/-- The disjunction of the clauses actually added to the WHERE part: each
alternative is only present when its operand sets are non-empty. -/
def chrMatch (sts cn fips ccc : List String) (r : CHRRow) : Bool :=
  (!fips.isEmpty && optMem r.fipscode fips)
  || (!sts.isEmpty && !ccc.isEmpty && optMem r.state sts && optMem r.county_code ccc)
  || (!sts.isEmpty && !cn.isEmpty && optMem r.state sts && optMem r.county cn)

/-- `if not clauses: ... 404`: at least one alternative must have its
operand sets populated. -/
def hasClauses (sts cn fips ccc : List String) : Bool :=
  !fips.isEmpty || (!sts.isEmpty && !ccc.isEmpty) || (!sts.isEmpty && !cn.isEmpty)

/-- The rankings query: measure equality AND the clause disjunction.  The
statement has no ORDER BY, so the rows come back in table (rowid) order:
a filter of the table list.  The database is returned unchanged. -/
def selectChr (d : Db) (m : String) (sts cn fips ccc : List String) :
    List CHRRow × Db :=
  (d.county_health_rankings.filter
    (fun r => sqlEqParam r.measure_name m && chrMatch sts cn fips ccc r), d)

/-- `rows_to_dicts` on one row: every schema column, keyed as in the
table, NULL as JSON null and text via `str` (identity on TEXT). -/
def chrToJson (r : CHRRow) : JValue :=
  JValue.obj
    [("state", optJson r.state),
     ("county", optJson r.county),
     ("state_code", optJson r.state_code),
     ("county_code", optJson r.county_code),
     ("year_span", optJson r.year_span),
     ("measure_name", optJson r.measure_name),
     ("measure_id", optJson r.measure_id),
     ("numerator", optJson r.numerator),
     ("denominator", optJson r.denominator),
     ("raw_value", optJson r.raw_value),
     ("confidence_interval_lower_bound", optJson r.confidence_interval_lower_bound),
     ("confidence_interval_upper_bound", optJson r.confidence_interval_upper_bound),
     ("data_release_year", optJson r.data_release_year),
     ("fipscode", optJson r.fipscode)]

/-- The `POST /` FastAPI handler.  `body = none` models a request whose
content type is not JSON; `db = none` models a missing `data.db`. -/
def county_data (body : Option JObj) (db : Option Db) : Resp × Option Db :=
  match body with
  | none => (⟨400, detailObj "content-type must be application/json"⟩, db)
  | some payload =>
    if isTeapot (pyGet payload "coffee") then
      (⟨418, errObj "I\x27m a teapot"⟩, db)
    else
      let zv := pyGet payload "zip"
      let mv := pyGet payload "measure_name"
      if zv.isNone || mv.isNone then
        (⟨400, detailObj "zip and measure_name are required"⟩, db)
      else if !zipOk zv then
        (⟨400, detailObj "zip must be a 5-digit string"⟩, db)
      else if !measureAllowed mv then
        (⟨400, detailObj "measure_name is not allowed"⟩, db)
      else
        match db with
        | none => (⟨500, detailObj "data.db not found on server"⟩, none)
        | some d =>
          let res1 := selectZipCounty d (zipStr zv)
          let zc := res1.1
          let d1 := res1.2
          if zc.isEmpty then (⟨404, detailObj "zip not found"⟩, some d1)
          else
            let sts := states zc
            let cn := countyNames zc
            let cs := codes zc
            let fips := fipsCodes cs
            let ccc := cccCodes cs
            if !hasClauses sts cn fips ccc then
              (⟨404, detailObj "no county mapping for zip"⟩, some d1)
            else
              let res2 := selectChr d1 (measureStr mv) sts cn fips ccc
              let rows := res2.1
              let d2 := res2.2
              if rows.isEmpty then
                (⟨404, detailObj "zip/measure_name pair not found"⟩, some d2)
              else (⟨200, JValue.arr (rows.map chrToJson)⟩, some d2)

/-- FastAPI routing of `api/county_data.py`: the root path is the only
route; `GET /` is the explicit 404 view, anything unrouted gets the
framework 404. -/
def dispatch (m : Method) (path : String) (body : Option JObj) (db : Option Db) :
    Resp × Option Db :=
  match m, path with
  | Method.get, "/" => (⟨404, detailObj "Not found"⟩, db)
  | Method.post, "/" => county_data body db
  | _, _ => (⟨404, detailObj "Not Found"⟩, db)

end Api

/-! ## CSV bulk importer (`csv_to_sqlite.py`) -/

namespace Csv

/-- The reserved-keyword subset checked by the importer
(`SQLITE_KEYWORDS`). -/
def SQLITE_KEYWORDS : List String :=
  ["SELECT", "INSERT", "DELETE", "UPDATE", "CREATE", "DROP", "TABLE", "FROM",
   "WHERE", "AND", "OR", "NOT", "NULL", "IN", "IS", "LIKE", "BY", "GROUP",
   "ORDER", "HAVING", "AS", "JOIN", "ON", "UNION", "VALUES", "INTO"]

/-- Python `str.isalpha` on one character, on the ASCII range.  Python's
class is Unicode-wide; the theorems about the validator therefore carry
an ASCII hypothesis, under which this fragment is exact. -/
def pyIsAlpha (c : Char) : Bool := c.isAlpha

/-- Python `str.isalnum` on one character, on the ASCII range (see
`pyIsAlpha`). -/
def pyIsAlnum (c : Char) : Bool := c.isAlphanum

/-- Whitespace for Python `str.strip` (the ASCII whitespace characters;
header cells here are ASCII). -/
def pyIsSpace (c : Char) : Bool :=
  c = ' ' || c = '\t' || c = '\n' || c = '\x0d' || c = '\x0b' || c = '\x0c'

/-- Python `str.strip()`: drop whitespace from both ends. -/
def pyStrip (s : String) : String :=
  String.mk (((s.data.dropWhile pyIsSpace).reverse.dropWhile pyIsSpace).reverse)

/-- Python `str.upper` on an ASCII identifier. -/
def pyUpper (s : String) : String :=
  String.mk (s.data.map (fun c =>
    if 97 <= c.toNat && c.toNat <= 122 then Char.ofNat (c.toNat - 32) else c))

/-- `_validate_identifier`: non-empty, first character a letter or
underscore, every character alphanumeric or underscore, and the uppercased
name not in the keyword subset. -/
def _validate_identifier (name : String) : Bool :=
  match name.data with
  | [] => false
  | c :: _ =>
      (pyIsAlpha c || c == '_') &&
      name.data.all (fun x => pyIsAlnum x || x == '_') &&
      !SQLITE_KEYWORDS.contains (pyUpper name)

/-- A parsed CSV file as seen through `csv.DictReader`: the optional
header row (`fieldnames`, absent for an empty file) and the remaining
records as lists of cell strings. -/
structure CsvFile where
  header : Option (List String)
  records : List (List String)
deriving Repr

/-- A SQLite database file for the importer: named tables with a column
list and rows of nullable TEXT values. -/
structure SqlTable where
  cols : List String
  rows : List (List (Option String))
deriving DecidableEq, Repr

/-- The database as a list of (name, table) pairs in creation order. -/
abbrev SqliteDb := List (String × SqlTable)

/-- `DROP TABLE IF EXISTS t`. -/
def dropTable (db : SqliteDb) (t : String) : SqliteDb :=
  db.filter (fun nt => nt.1 != t)

/-- The basename of a POSIX path (text after the last slash). -/
def pathBasename (p : String) : String :=
  String.mk ((p.data.reverse.takeWhile (fun c => c != '/')).reverse)

/-- `pathlib.Path(p).stem`: the basename without its last suffix; a
leading dot or a bare trailing dot does not count as a suffix
separator. -/
def pathStem (p : String) : String :=
  let name := pathBasename p
  let cs := name.data
  match (cs.reverse.takeWhile (fun c => c != '.')).reverse with
  | [] => name
  | tail =>
      if tail.length = cs.length then name
      else if cs.length - tail.length - 1 = 0 then name
      else if tail.length = 0 then name
      else String.mk (cs.take (cs.length - tail.length - 1))

/-- The last index at which `c` occurs in `l` (`dict` construction from
`zip(fieldnames, row)` keeps the last duplicate). -/
def lastIdxOf (l : List String) (c : String) : Option Nat :=
  (l.foldl
    (fun acc x => (if x == c then some acc.2 else acc.1, acc.2 + 1))
    ((none : Option Nat), 0)).1

/-- `row.get(col) or None` for a `DictReader` row: the stripped column
name is looked up among the original fieldnames (last duplicate wins,
missing trailing cells are `None`), and an empty cell collapses to
`None`. -/
def rowLookup (fieldnames : List String) (rec : List String) (c : String) :
    Option String :=
  match lastIdxOf fieldnames c with
  | some i =>
      match rec.get? i with
      | some "" => none
      | some v => some v
      | none => none
  | none => none

/-- `main()`: argument check, table-name derivation and validation, header
validation, then drop/create/insert.  The returned pair is the process
exit code and the final database state.  `fs` models the file system
(`None` when the CSV path does not exist). -/
def main (argv : List String) (fs : String → Option CsvFile) (db : SqliteDb) :
    Nat × SqliteDb :=
  match argv with
  | [_, _, csv_path] =>
    let table_name := pathStem csv_path
    match fs csv_path with
    | none => (2, db)
    | some file =>
      if !_validate_identifier table_name then (4, db)
      else
        match file.header with
        | none => (3, db)
        | some fieldnames =>
          let columns := fieldnames.map pyStrip
          if !columns.all _validate_identifier then (5, db)
          else
            let db1 := dropTable db table_name
            let inserted := file.records.map
              (fun rec => columns.map (fun c => rowLookup fieldnames rec c))
            (0, db1 ++ [(table_name, ⟨columns, inserted⟩)])
  | _ => (1, db)

end Csv

example : Csv.pathStem "tests/zip_county.csv" = "zip_county" := by decide
example : Csv.pathStem "1bad.csv" = "1bad" := by decide
example : Csv.pathStem ".bashrc" = ".bashrc" := by decide
example : Csv.pathStem "foo.tar.gz" = "foo.tar" := by decide
example : Csv._validate_identifier "zip_county" = true := by decide
example : Csv._validate_identifier "1bad" = false := by decide
example : Csv._validate_identifier "SELECT" = false := by decide
example : Csv._validate_identifier "bad name" = false := by decide

/-! ## Order-theoretic facts about the Flask sort key -/

theorem cmpChars_swap (a b : List Char) : cmpChars b a = (cmpChars a b).swap := by
  induction a generalizing b with
  | nil => cases b <;> simp [cmpChars, Ordering.swap]
  | cons c as ih =>
    cases b with
    | nil => simp [cmpChars, Ordering.swap]
    | cons d bs =>
      simp only [cmpChars]
      rcases Nat.lt_trichotomy c.toNat d.toNat with h | h | h
      · simp [h, Nat.not_lt.mpr (Nat.le_of_lt h), Ordering.swap]
      · simp [h, Nat.lt_irrefl, ih]
      · simp [h, Nat.not_lt.mpr (Nat.le_of_lt h), Ordering.swap]


theorem cmpChars_lt_trans (a b c : List Char) (h1 : cmpChars a b = Ordering.lt)
    (h2 : cmpChars b c = Ordering.lt) : cmpChars a c = Ordering.lt := by
  induction a generalizing b c with
  | nil =>
    cases c with
    | nil => cases b <;> simp [cmpChars] at h2
    | cons e cs => simp [cmpChars]
  | cons x as ih =>
    cases b with
    | nil => simp [cmpChars] at h1
    | cons d bs =>
      cases c with
      | nil => simp [cmpChars] at h2
      | cons e cs =>
        simp only [cmpChars] at h1 h2 ⊢
        by_cases hxd : x.toNat < d.toNat
        · by_cases hde : d.toNat < e.toNat
          · simp [Nat.lt_trans hxd hde]
          · rw [if_neg hde] at h2
            by_cases hed : e.toNat < d.toNat
            · rw [if_pos hed] at h2
              exact absurd h2 (by simp)
            · have hxe : x.toNat < e.toNat := by omega
              simp [hxe]
        · rw [if_neg hxd] at h1
          by_cases hdx : d.toNat < x.toNat
          · rw [if_pos hdx] at h1
            exact absurd h1 (by simp)
          · rw [if_neg hdx] at h1
            by_cases hde : d.toNat < e.toNat
            · have hxe : x.toNat < e.toNat := by omega
              simp [hxe]
            · rw [if_neg hde] at h2
              by_cases hed : e.toNat < d.toNat
              · rw [if_pos hed] at h2
                exact absurd h2 (by simp)
              · rw [if_neg hed] at h2
                have hxe : ¬ x.toNat < e.toNat := by omega
                have hex : ¬ e.toNat < x.toNat := by omega
                rw [if_neg hxe, if_neg hex]
                exact ih bs cs h1 h2

theorem cmpChars_eq_left_congr (a b : List Char)
    (h : cmpChars a b = Ordering.eq) (c : List Char) :
    cmpChars a c = cmpChars b c := by
  induction a generalizing b c with
  | nil =>
    cases b with
    | nil => rfl
    | cons d bs => simp [cmpChars] at h
  | cons x as ih =>
    cases b with
    | nil => simp [cmpChars] at h
    | cons d bs =>
      simp only [cmpChars] at h
      by_cases hxd : x.toNat < d.toNat
      · rw [if_pos hxd] at h
        exact absurd h (by simp)
      · rw [if_neg hxd] at h
        by_cases hdx : d.toNat < x.toNat
        · rw [if_pos hdx] at h
          exact absurd h (by simp)
        · rw [if_neg hdx] at h
          have hEq : x.toNat = d.toNat := by omega
          cases c with
          | nil => simp [cmpChars]
          | cons e cs =>
            simp only [cmpChars, hEq]
            split_ifs <;> first | rfl | exact ih bs h cs

theorem cmpOptInt_swap (a b : Option Int) : cmpOptInt b a = (cmpOptInt a b).swap := by
  cases a <;> cases b <;> simp only [cmpOptInt, Ordering.swap]
  all_goals first
  | rfl
  | (split_ifs <;> first | rfl | omega)


theorem cmpOptInt_lt_trans (a b c : Option Int) (h1 : cmpOptInt a b = Ordering.lt)
    (h2 : cmpOptInt b c = Ordering.lt) : cmpOptInt a c = Ordering.lt := by
  cases a with
  | none =>
    cases c with
    | none => cases b <;> simp [cmpOptInt] at h2
    | some _ => rfl
  | some x =>
    cases b with
    | none => simp [cmpOptInt] at h1
    | some y =>
      cases c with
      | none => simp [cmpOptInt] at h2
      | some z =>
        simp only [cmpOptInt] at h1 h2 ⊢
        by_cases hxy : x < y
        · by_cases hyz : y < z
          · simp [Int.lt_trans hxy hyz]
          · rw [if_neg hyz] at h2
            by_cases hzy : z < y
            · rw [if_pos hzy] at h2
              exact Ordering.noConfusion h2
            · have : x < z := by omega
              simp [this]
        · rw [if_neg hxy] at h1
          by_cases hyx : y < x
          · rw [if_pos hyx] at h1
            exact Ordering.noConfusion h1
          · rw [if_neg hyx] at h1
            exact Ordering.noConfusion h1

theorem cmpOptInt_eq_iff (a b : Option Int) :
    cmpOptInt a b = Ordering.eq ↔ a = b := by
  cases a <;> cases b <;> simp only [cmpOptInt] <;> try simp
  rename_i x y
  omega

theorem cmpChars_eq_right_congr (b c : List Char)
    (h : cmpChars b c = Ordering.eq) (a : List Char) :
    cmpChars a b = cmpChars a c := by
  rw [cmpChars_swap b a, cmpChars_swap c a, cmpChars_eq_left_congr b c h a]

theorem cmpOptStr_lt_trans (a b c : Option String)
    (h1 : cmpOptStr a b = Ordering.lt) (h2 : cmpOptStr b c = Ordering.lt) :
    cmpOptStr a c = Ordering.lt := by
  cases a with
  | none =>
    cases c with
    | none => cases b <;> simp [cmpOptStr, cmpStr] at h2
    | some _ => rfl
  | some x =>
    cases b with
    | none => exact Ordering.noConfusion h1
    | some y =>
      cases c with
      | none => exact Ordering.noConfusion h2
      | some z =>
        exact cmpChars_lt_trans _ _ _ h1 h2

theorem cmpOptStr_eq_left_congr (a b : Option String)
    (h : cmpOptStr a b = Ordering.eq) (c : Option String) :
    cmpOptStr a c = cmpOptStr b c := by
  cases a with
  | none =>
    cases b with
    | none => rfl
    | some _ => exact Ordering.noConfusion h
  | some x =>
    cases b with
    | none => exact Ordering.noConfusion h
    | some y =>
      cases c with
      | none => rfl
      | some z => exact cmpChars_eq_left_congr _ _ h _

theorem cmpOptStr_eq_right_congr (b c : Option String)
    (h : cmpOptStr b c = Ordering.eq) (a : Option String) :
    cmpOptStr a b = cmpOptStr a c := by
  cases b with
  | none =>
    cases c with
    | none => rfl
    | some _ => exact Ordering.noConfusion h
  | some y =>
    cases c with
    | none => exact Ordering.noConfusion h
    | some z =>
      cases a with
      | none => rfl
      | some x => exact cmpChars_eq_right_congr _ _ h _

theorem cmpOptInt_eq_right_congr (b c : Option Int)
    (h : cmpOptInt b c = Ordering.eq) (a : Option Int) :
    cmpOptInt a b = cmpOptInt a c := by
  rw [(cmpOptInt_eq_iff b c).mp h]

theorem cmpOptInt_eq_left_congr (a b : Option Int)
    (h : cmpOptInt a b = Ordering.eq) (c : Option Int) :
    cmpOptInt a c = cmpOptInt b c := by
  rw [(cmpOptInt_eq_iff a b).mp h]

theorem cmpOptStr_swap (a b : Option String) :
    cmpOptStr b a = (cmpOptStr a b).swap := by
  cases a with
  | none =>
    cases b with
    | none => rfl
    | some _ => rfl
  | some x =>
    cases b with
    | none => rfl
    | some y => exact cmpChars_swap _ _

theorem chrCmp_swap (x y : CHRRow) : chrCmp y x = (chrCmp x y).swap := by
  simp only [chrCmp]
  rw [cmpOptInt_swap]
  cases h : cmpOptInt (x.data_release_year.map castTextInt)
      (y.data_release_year.map castTextInt) with
  | lt => rfl
  | gt => rfl
  | eq => exact cmpOptStr_swap _ _

theorem chrCmp_eq_right_congr (y z : CHRRow) (h : chrCmp y z = Ordering.eq)
    (x : CHRRow) : chrCmp x y = chrCmp x z := by
  simp only [chrCmp] at h ⊢
  cases hI : cmpOptInt (y.data_release_year.map castTextInt)
      (z.data_release_year.map castTextInt) with
  | lt => rw [hI] at h; exact Ordering.noConfusion h
  | gt => rw [hI] at h; exact Ordering.noConfusion h
  | eq =>
    rw [hI] at h
    rw [cmpOptInt_eq_right_congr _ _ hI]
    cases cmpOptInt (x.data_release_year.map castTextInt)
        (z.data_release_year.map castTextInt) with
    | lt => rfl
    | gt => rfl
    | eq => exact cmpOptStr_eq_right_congr _ _ h _

theorem chrCmp_eq_left_congr (x y : CHRRow) (h : chrCmp x y = Ordering.eq)
    (z : CHRRow) : chrCmp x z = chrCmp y z := by
  simp only [chrCmp] at h ⊢
  cases hI : cmpOptInt (x.data_release_year.map castTextInt)
      (y.data_release_year.map castTextInt) with
  | lt => rw [hI] at h; exact Ordering.noConfusion h
  | gt => rw [hI] at h; exact Ordering.noConfusion h
  | eq =>
    rw [hI] at h
    rw [cmpOptInt_eq_left_congr _ _ hI]
    cases cmpOptInt (y.data_release_year.map castTextInt)
        (z.data_release_year.map castTextInt) with
    | lt => rfl
    | gt => rfl
    | eq => exact cmpOptStr_eq_left_congr _ _ h _

theorem chrCmp_lt_trans (x y z : CHRRow) (h1 : chrCmp x y = Ordering.lt)
    (h2 : chrCmp y z = Ordering.lt) : chrCmp x z = Ordering.lt := by
  simp only [chrCmp] at h1 h2 ⊢
  cases hI1 : cmpOptInt (x.data_release_year.map castTextInt)
      (y.data_release_year.map castTextInt) with
  | gt => rw [hI1] at h1; exact Ordering.noConfusion h1
  | lt =>
    cases hI2 : cmpOptInt (y.data_release_year.map castTextInt)
        (z.data_release_year.map castTextInt) with
    | gt => rw [hI2] at h2; exact Ordering.noConfusion h2
    | lt => rw [cmpOptInt_lt_trans _ _ _ hI1 hI2]
    | eq =>
      rw [← cmpOptInt_eq_right_congr _ _ hI2, hI1]
  | eq =>
    rw [hI1] at h1
    rw [cmpOptInt_eq_left_congr _ _ hI1]
    cases hI2 : cmpOptInt (y.data_release_year.map castTextInt)
        (z.data_release_year.map castTextInt) with
    | gt => rw [hI2] at h2; exact Ordering.noConfusion h2
    | lt => rfl
    | eq =>
      rw [hI2] at h2
      exact cmpOptStr_lt_trans _ _ _ h1 h2

instance : IsTotal CHRRow chrLe := by
  constructor
  intro x y
  simp only [chrLe, chrLeB]
  cases h : chrCmp x y with
  | lt => left; rfl
  | eq => left; rfl
  | gt =>
    right
    rw [chrCmp_swap, h]
    rfl

instance : IsTrans CHRRow chrLe := by
  constructor
  intro x y z h1 h2
  simp only [chrLe, chrLeB] at h1 h2 ⊢
  cases hxy : chrCmp x y with
  | gt => rw [hxy] at h1; exact absurd h1 (by decide)
  | eq => rw [chrCmp_eq_left_congr _ _ hxy]; exact h2
  | lt =>
    cases hyz : chrCmp y z with
    | gt => rw [hyz] at h2; exact absurd h2 (by decide)
    | lt => rw [chrCmp_lt_trans _ _ _ hxy hyz]
    | eq => rw [← chrCmp_eq_right_congr _ _ hyz, hxy]

/-! ## Concrete fixtures

The 02138 / Middlesex scenario from the specification and the repository
test suite, plus variants exercising insertion order and multi-county
zips. -/

/-- `("02138","MA","Middlesex County","25017")`. -/
def zcMid : ZipCountyRow :=
  ⟨some "02138", some "MA", some "Middlesex County", some "25017"⟩

/-- A second county for the same zip (`"25099"`). -/
def zcOther : ZipCountyRow :=
  ⟨some "02138", some "MA", some "Another County", some "25099"⟩

/-- The 2012-release Adult obesity row for fips 25017. -/
def chr2012 : CHRRow :=
  ⟨some "MA", some "Middlesex County", some "25", some "017", some "2009",
   some "Adult obesity", some "11", some "60771.02", some "263078", some "0.23",
   some "0.22", some "0.24", some "2012", some "25017"⟩

/-- The 2014-release Adult obesity row for fips 25017. -/
def chr2014 : CHRRow :=
  ⟨some "MA", some "Middlesex County", some "25", some "017", some "2010",
   some "Adult obesity", some "11", some "266426", some "1143459.228", some "0.233",
   some "0.224", some "0.242", some "2014", some "25017"⟩

/-- An Adult obesity row for the second county (fips 25099). -/
def chr25099 : CHRRow :=
  ⟨some "MA", some "Another County", some "25", some "099", some "2010",
   some "Adult obesity", some "11", some "100", some "1000", some "0.1",
   some "0.09", some "0.11", some "2013", some "25099"⟩

/-- The scenario database: one zip row, the 2012 and 2014 rankings rows in
insertion order. -/
def dbScenario : Db := ⟨[zcMid], [chr2012, chr2014]⟩

/-- The same data with the rankings rows inserted in the opposite order. -/
def dbRev : Db := ⟨[zcMid], [chr2014, chr2012]⟩

/-- A multi-county database: `02138` maps to two county codes, and each
county has an Adult obesity row. -/
def dbMulti : Db := ⟨[zcMid, zcOther], [chr2012, chr2014, chr25099]⟩

/-- An empty database. -/
def dbEmpty : Db := ⟨[], []⟩

/-- The request `{"zip": "02138", "measure_name": "Adult obesity"}`. -/
def pReq : JObj :=
  [("zip", JValue.str "02138"), ("measure_name", JValue.str "Adult obesity")]

/-- The request for a measure the scenario database has no rows for. -/
def pReqMammo : JObj :=
  [("zip", JValue.str "02138"), ("measure_name", JValue.str "Mammography screening")]

/-- A request with a malformed zip. -/
def pBadZip : JObj :=
  [("zip", JValue.str "123"), ("measure_name", JValue.str "Adult obesity")]

/-- The `data_release_year` fields of the rows of a JSON array response
body, in response order. -/
def releaseYears (v : JValue) : List (Option String) :=
  match v with
  | JValue.arr l =>
      l.map (fun r =>
        match r with
        | JValue.obj kvs =>
            match kvs.find? (fun kv => kv.1 == "data_release_year") with
            | some kv2 =>
                match kv2.2 with
                | JValue.str s => some s
                | _ => none
            | none => none
        | _ => none)
  | _ => []

/-! ## Claim C7 -/

theorem App.flask_snd_unchanged (body : Option JObj) (db : Option Db) :
    (App.county_data body db).2 = db := by
  cases body with
  | none => rfl
  | some data =>
    cases db with
    | none =>
      simp only [App.county_data, App.fetch_data]
      split_ifs <;> rfl
    | some d =>
      simp only [App.county_data, App.fetch_data]
      split_ifs <;> rfl

theorem Api.api_snd_unchanged (body : Option JObj) (db : Option Db) :
    (Api.county_data body db).2 = db := by
  cases body with
  | none => rfl
  | some payload =>
    cases db with
    | none =>
      simp only [Api.county_data]
      split_ifs <;> rfl
    | some d =>
      simp only [Api.county_data, Api.selectZipCounty, Api.selectChr]
      split_ifs <;> rfl

/-- C7: no request mutates the persisted state: for every method, path,
body and database, both the Flask app and the FastAPI app hand back the
reference database exactly as they received it — every embedded SQL
operation in the handlers is a read. -/
theorem claim_C7_no_mutation (m : Method) (path : String) (body : Option JObj)
    (db : Option Db) :
    (App.dispatch m path body db).2 = db ∧ (Api.dispatch m path body db).2 = db := by
  constructor
  · unfold App.dispatch
    split
    · rfl
    · exact App.flask_snd_unchanged body db
    · rfl
    · rfl
    · rfl
  · unfold Api.dispatch
    split
    · rfl
    · exact Api.api_snd_unchanged body db
    · rfl

/-! ## Claims C4 and C10 -/

theorem isTeapot_true_iff (v : Option JValue) :
    isTeapot v = true ↔ v = some (JValue.str "teapot") := by
  cases v with
  | none => simp [isTeapot]
  | some x => cases x <;> simp [isTeapot]

/-- C4: any parsed JSON body whose top-level `coffee` key holds the exact
string `"teapot"` — alone or next to arbitrary other fields — makes both
handlers answer 418 before any other validation runs. -/
theorem claim_C4_teapot_priority (p : JObj) (db : Option Db)
    (h : pyGet p "coffee" = some (JValue.str "teapot")) :
    (App.county_data (some p) db).1.status = 418 ∧
    (Api.county_data (some p) db).1.status = 418 := by
  have ht : isTeapot (pyGet p "coffee") = true := by
    rw [h]
    decide
  constructor
  · simp [App.county_data, ht]
  · simp [Api.county_data, ht]

theorem claim_C4_witness :
    pyGet [("coffee", JValue.str "teapot"), ("zip", JValue.str "bad")] "coffee"
        = some (JValue.str "teapot") ∧
    (App.county_data
        (some [("coffee", JValue.str "teapot"), ("zip", JValue.str "bad")]) none).1.status
        = 418 ∧
    (Api.county_data
        (some [("coffee", JValue.str "teapot"), ("zip", JValue.str "bad")]) none).1.status
        = 418 := by
  have h := claim_C4_teapot_priority
    [("coffee", JValue.str "teapot"), ("zip", JValue.str "bad")] none (by rfl)
  exact ⟨rfl, h.1, h.2⟩

/-- C10: the 418 teapot answer is produced if and only if the parsed
body's top-level `coffee` key holds exactly the string `"teapot"`; any
other key, nesting or value (including case variants) falls through to
normal validation in both handlers, none of whose outcomes is 418. -/
theorem claim_C10_teapot_iff (p : JObj) (db : Option Db) :
    ((App.county_data (some p) db).1.status = 418 ↔
      pyGet p "coffee" = some (JValue.str "teapot")) ∧
    ((Api.county_data (some p) db).1.status = 418 ↔
      pyGet p "coffee" = some (JValue.str "teapot")) := by
  cases ht : isTeapot (pyGet p "coffee") with
  | true =>
    have h2 := (isTeapot_true_iff _).mp ht
    have hteq : isTeapot (some (JValue.str "teapot")) = true := by decide
    constructor <;> simp [App.county_data, Api.county_data, ht, h2, hteq]
  | false =>
    have h2 : ¬ pyGet p "coffee" = some (JValue.str "teapot") := by
      intro hc
      rw [hc] at ht
      simp [isTeapot] at ht
    have hsApp : (App.county_data (some p) db).1.status ≠ 418 := by
      cases db with
      | none =>
        simp only [App.county_data, App.fetch_data, ht]
        split_ifs <;> simp_all
      | some d =>
        simp only [App.county_data, App.fetch_data, ht]
        split_ifs <;> simp_all
    have hsApi : (Api.county_data (some p) db).1.status ≠ 418 := by
      cases db with
      | none =>
        simp only [Api.county_data, ht]
        split_ifs <;> simp_all
      | some d =>
        simp only [Api.county_data, Api.selectZipCounty, Api.selectChr, ht]
        split_ifs <;> simp_all
    exact ⟨⟨fun hst => absurd hst hsApp, fun hc => absurd hc h2⟩,
           ⟨fun hst => absurd hst hsApi, fun hc => absurd hc h2⟩⟩

/-! ## Claim C6 -/

/-- C6 counterexample: in the FastAPI app the data endpoint is `/`, and a
GET of it is answered by the explicit `_index_get` view with status 404 —
not the 405 the claim asserts for GET on the data endpoint. -/
theorem claim_C6_counterexample :
    (Api.dispatch Method.get "/" none none).1.status = 404 ∧
    (Api.dispatch Method.get "/" none none).1.status ≠ 405 := by
  exact ⟨rfl, by decide⟩

/-- C6 (amended): in the Flask app a GET of the data endpoint
`/county_data` yields 405 and a GET of the health endpoint `/` yields 200
with body `{"ok": true}`; the FastAPI app, whose only (data) endpoint is
`/`, answers GET there with 404 by design. -/
theorem claim_C6_amended (body : Option JObj) (db : Option Db) :
    (App.dispatch Method.get "/county_data" body db).1 =
      ⟨405, errObj "Method not allowed"⟩ ∧
    (App.dispatch Method.get "/" body db).1 =
      ⟨200, JValue.obj [("ok", JValue.bool true)]⟩ ∧
    (Api.dispatch Method.get "/" body db).1 = ⟨404, detailObj "Not found"⟩ := by
  exact ⟨rfl, rfl, rfl⟩

/-! ## Claim C1 -/

/-- C1 counterexample: the FastAPI rankings query has no ORDER BY, so rows
come back in table order.  With the 2014-release row stored before the
2012 one, the 200 response lists 2014 before 2012: not ascending by the
numeric release year. -/
theorem claim_C1_counterexample :
    (Api.county_data (some pReq) (some dbRev)).1.status = 200 ∧
    releaseYears (Api.county_data (some pReq) (some dbRev)).1.body =
      [some "2014", some "2012"] ∧
    ¬ castTextInt "2014" ≤ castTextInt "2012" := by
  refine ⟨rfl, by decide, by decide⟩

/-- C1 (amended): the Flask handler's query does order every result
ascending by the integer cast of `Data_Release_Year` with `Year_span` as
tie-break (`chrLe`), and in the 02138 / Adult obesity scenario it returns
200 with the 2012 row before the 2014 row; the FastAPI handler applies no
ordering and returns rows in table order. -/
theorem claim_C1_amended :
    (∀ (d : Db) (zipv m : Option JValue),
      List.Pairwise chrLe (App.orderedRows d zipv m)) ∧
    (App.county_data (some pReq) (some dbScenario)).1.status = 200 ∧
    releaseYears (App.county_data (some pReq) (some dbScenario)).1.body =
      [some "2012", some "2014"] := by
  refine ⟨fun d zipv m => List.sorted_insertionSort chrLe _, rfl, by decide⟩

/-! ## Claim C3 -/

/-- The zip shape demanded by the claim's own wording: exactly five ASCII
decimal digits, nothing else. -/
def asciiZip5 (s : String) : Bool :=
  s.data.length == 5 && s.data.all Char.isDigit

/-- C3 counterexample: `"12345\n"` is not five ASCII digits (it carries a
trailing newline), yet the Flask handler's `re.match(r"^\d{5}$", ...)`
accepts it — Python's `$` also matches before a final newline — so the
request proceeds to the query and yields 404, not the 400 the claim
requires. -/
theorem claim_C3_counterexample :
    asciiZip5 "12345\n" = false ∧
    App.is_valid_zip (some (JValue.str "12345\n")) = true ∧
    (App.county_data
      (some [("zip", JValue.str "12345\n"),
             ("measure_name", JValue.str "Adult obesity")])
      (some dbEmpty)).1.status = 404 ∧
    (App.county_data
      (some [("zip", JValue.str "12345\n"),
             ("measure_name", JValue.str "Adult obesity")])
      (some dbEmpty)).1.status ≠ 400 := by
  exact ⟨by decide, by decide, rfl, by decide⟩

/-- C3 (amended): for a parsed JSON body without the teapot marker, the
FastAPI handler answers 400 whenever the zip value is absent, not a
string, or fails `re.fullmatch(r"^\d{5}$", ...)`; the Flask handler
answers 400 whenever `str(zip)` fails its `re.match` check — a check
which, unlike the claim's ASCII-strict reading, also accepts five digits
followed by a single trailing newline, for which Flask proceeds to the
query instead of rejecting. -/
theorem claim_C3_amended (p : JObj) (db : Option Db)
    (hc : isTeapot (pyGet p "coffee") = false) :
    (Api.zipOk (pyGet p "zip") = false →
      (Api.county_data (some p) db).1.status = 400) ∧
    (App.is_valid_zip (pyGet p "zip") = false →
      (App.county_data (some p) db).1.status = 400) := by
  constructor
  · intro hz
    simp only [Api.county_data, hc]
    cases h1 : ((pyGet p "zip").isNone || (pyGet p "measure_name").isNone) with
    | true => simp [h1]
    | false => simp [h1, hz]
  · intro hz
    simp only [App.county_data, hc]
    cases h1 : (!pyTruthy (pyGet p "zip") || !pyTruthy (pyGet p "measure_name")) with
    | true => simp [h1]
    | false => simp [h1, hz]

theorem claim_C3_witness :
    isTeapot (pyGet pBadZip "coffee") = false ∧
    Api.zipOk (pyGet pBadZip "zip") = false ∧
    (Api.county_data (some pBadZip) none).1.status = 400 ∧
    App.is_valid_zip (pyGet pBadZip "zip") = false ∧
    (App.county_data (some pBadZip) none).1.status = 400 := by
  have h := claim_C3_amended pBadZip none (by decide)
  exact ⟨by decide, by decide, h.1 (by decide), by decide, h.2 (by decide)⟩

/-! ## Evaluation lemmas for validated requests (used by C2 and C5) -/

/-- The zip resolution result list. -/
def Api.zcRows (d : Db) (z : String) : List ZipCountyRow :=
  (Api.selectZipCounty d z).1

/-- The rankings rows the FastAPI query returns for a validated request. -/
def Api.queryRows (d : Db) (z m : String) : List CHRRow :=
  (Api.selectChr (Api.selectZipCounty d z).2 m
    (Api.states (Api.zcRows d z)) (Api.countyNames (Api.zcRows d z))
    (Api.fipsCodes (Api.codes (Api.zcRows d z)))
    (Api.cccCodes (Api.codes (Api.zcRows d z)))).1

theorem Api.api_validated_eval (p : JObj) (d : Db) (z m : String)
    (hc : isTeapot (pyGet p "coffee") = false)
    (hz : pyGet p "zip" = some (JValue.str z))
    (hm : pyGet p "measure_name" = some (JValue.str m))
    (hzip : reFullmatchZip5 z = true)
    (hmeas : ALLOWED_MEASURES.contains m = true) :
    Api.county_data (some p) (some d) =
      (if (Api.zcRows d z).isEmpty then
        (⟨404, detailObj "zip not found"⟩, some d)
       else if !Api.hasClauses (Api.states (Api.zcRows d z))
            (Api.countyNames (Api.zcRows d z))
            (Api.fipsCodes (Api.codes (Api.zcRows d z)))
            (Api.cccCodes (Api.codes (Api.zcRows d z))) then
        (⟨404, detailObj "no county mapping for zip"⟩, some d)
       else if (Api.queryRows d z m).isEmpty then
        (⟨404, detailObj "zip/measure_name pair not found"⟩, some d)
       else
        (⟨200, JValue.arr ((Api.queryRows d z m).map Api.chrToJson)⟩, some d)) := by
  simp only [Api.county_data, hc, hz, hm, Bool.false_eq_true, if_false,
    Option.isNone_some, Bool.or_self, Api.zipOk, hzip, Bool.not_true,
    measureAllowed, hmeas, Api.zcRows, Api.queryRows, Api.zipStr,
    Api.measureStr, Api.selectZipCounty, Api.selectChr]

theorem App.flask_validated_eval (p : JObj) (d : Db)
    (hc : isTeapot (pyGet p "coffee") = false)
    (h1 : pyTruthy (pyGet p "zip") = true)
    (h2 : pyTruthy (pyGet p "measure_name") = true)
    (h3 : App.is_valid_zip (pyGet p "zip") = true)
    (h4 : measureAllowed (pyGet p "measure_name") = true) :
    App.county_data (some p) (some d) =
      (if (App.orderedRows d (pyGet p "zip") (pyGet p "measure_name")).isEmpty then
        (⟨404, errObj "No data found for given zip and measure_name."⟩, some d)
       else
        (⟨200, JValue.arr ((App.orderedRows d (pyGet p "zip")
          (pyGet p "measure_name")).map App.flaskRowToJson)⟩, some d)) := by
  have hmap : ∀ l : List CHRRow,
      (l.map App.flaskRowToJson).isEmpty = l.isEmpty := fun l => by
    cases l <;> rfl
  simp only [App.county_data, hc, h1, h2, h3, h4, Bool.false_eq_true, if_false,
    Bool.not_true, Bool.or_self, App.fetch_data, hmap]

/-! ## Claim C5 -/

/-- C5: a 200 answer never carries an empty JSON array — in both handlers
a 200 body is a non-empty array — and a fully validated request whose
query produces zero rows (unknown zip included) is answered 404. -/
theorem claim_C5_empty_is_404 :
    (∀ (body : Option JObj) (db : Option Db),
      (App.county_data body db).1.status = 200 →
      ∃ rows, (App.county_data body db).1.body = JValue.arr rows ∧ rows ≠ []) ∧
    (∀ (body : Option JObj) (db : Option Db),
      (Api.county_data body db).1.status = 200 →
      ∃ rows, (Api.county_data body db).1.body = JValue.arr rows ∧ rows ≠ []) ∧
    (∀ (p : JObj) (d : Db),
      isTeapot (pyGet p "coffee") = false →
      pyTruthy (pyGet p "zip") = true →
      pyTruthy (pyGet p "measure_name") = true →
      App.is_valid_zip (pyGet p "zip") = true →
      measureAllowed (pyGet p "measure_name") = true →
      App.orderedRows d (pyGet p "zip") (pyGet p "measure_name") = [] →
      (App.county_data (some p) (some d)).1.status = 404) ∧
    (∀ (p : JObj) (d : Db) (z m : String),
      isTeapot (pyGet p "coffee") = false →
      pyGet p "zip" = some (JValue.str z) →
      pyGet p "measure_name" = some (JValue.str m) →
      reFullmatchZip5 z = true →
      ALLOWED_MEASURES.contains m = true →
      Api.queryRows d z m = [] →
      (Api.county_data (some p) (some d)).1.status = 404) := by
  refine ⟨?_, ?_, ?_, ?_⟩
  · intro body db h
    cases body with
    | none => simp [App.county_data] at h
    | some data =>
      cases db with
      | none =>
        simp only [App.county_data, App.fetch_data] at h ⊢
        split_ifs at h ⊢ <;> simp_all
      | some d =>
        simp only [App.county_data, App.fetch_data] at h ⊢
        split_ifs at h ⊢ with h1 h2 h3 h4 h5 <;> simp_all
  · intro body db h
    cases body with
    | none => simp [Api.county_data] at h
    | some payload =>
      cases db with
      | none =>
        simp only [Api.county_data] at h ⊢
        split_ifs at h ⊢ <;> simp_all
      | some d =>
        simp only [Api.county_data] at h ⊢
        split_ifs at h ⊢ with h1 h2 h3 h4 h5 h6 h7 <;> simp_all
  · intro p d hc h1 h2 h3 h4 hrows
    rw [App.flask_validated_eval p d hc h1 h2 h3 h4]
    rw [hrows]
    rfl
  · intro p d z m hc hz hm hzip hmeas hrows
    rw [Api.api_validated_eval p d z m hc hz hm hzip hmeas]
    by_cases ha : (Api.zcRows d z).isEmpty
    · simp [ha]
    · by_cases hb : Api.hasClauses (Api.states (Api.zcRows d z))
          (Api.countyNames (Api.zcRows d z))
          (Api.fipsCodes (Api.codes (Api.zcRows d z)))
          (Api.cccCodes (Api.codes (Api.zcRows d z)))
      · simp [ha, hb, hrows]
      · simp [ha, hb]

theorem claim_C5_witness :
    (∃ rows, (App.county_data (some pReq) (some dbScenario)).1.body =
      JValue.arr rows ∧ rows ≠ []) ∧
    (∃ rows, (Api.county_data (some pReq) (some dbScenario)).1.body =
      JValue.arr rows ∧ rows ≠ []) ∧
    (App.county_data (some pReqMammo) (some dbScenario)).1.status = 404 ∧
    (Api.county_data (some pReqMammo) (some dbScenario)).1.status = 404 := by
  have h := claim_C5_empty_is_404
  exact ⟨h.1 (some pReq) (some dbScenario) rfl,
         h.2.1 (some pReq) (some dbScenario) rfl,
         h.2.2.1 pReqMammo dbScenario (by decide) (by decide) (by decide)
           (by decide) (by decide) (by decide),
         h.2.2.2 pReqMammo dbScenario "02138" "Mammography screening"
           (by decide) rfl rfl (by decide) (by decide) (by decide)⟩

/-! ## Claim C2 -/

theorem Api.mem_sortDedup (x : String) (l : List String) :
    x ∈ Api.sortDedup l ↔ x ∈ l := by
  simp [Api.sortDedup, List.mem_dedup, List.mem_insertionSort]

theorem reMatchZip5_of_full (s : String) (h : reFullmatchZip5 s = true) :
    reMatchZip5 s = true := by
  simp only [reFullmatchZip5, Bool.and_eq_true, beq_iff_eq] at h
  obtain ⟨hl, ha⟩ := h
  simp only [reMatchZip5]
  rw [← hl, List.take_length]
  simp [ha, hl]

theorem isEmpty_false_of_mem {α : Type} {x : α} {l : List α} (h : x ∈ l) :
    l.isEmpty = false := by
  cases l with
  | nil => exact absurd h (List.not_mem_nil x)
  | cons a t => rfl

/-- C2: when a validated zip maps to several `zip_county` rows, every
rankings row of every resolvable county reaches the 200 response.
Concretely: any rankings row `r` for the requested measure whose fipscode
equals the (full-length, non-empty) county code of ANY matching
`zip_county` row — first or not — appears in the response body of the
FastAPI handler, and likewise in the Flask handler's. -/
theorem claim_C2_all_counties (p : JObj) (d : Db) (z m c : String)
    (zc : ZipCountyRow) (r : CHRRow)
    (hc : isTeapot (pyGet p "coffee") = false)
    (hz : pyGet p "zip" = some (JValue.str z))
    (hm : pyGet p "measure_name" = some (JValue.str m))
    (hzip : reFullmatchZip5 z = true)
    (hmeas : ALLOWED_MEASURES.contains m = true)
    (hzc : zc ∈ d.zip_county)
    (hzcz : zc.zip = some z)
    (hcode : zc.county_code = some c)
    (hcne : c ≠ "")
    (hclen : 5 ≤ c.length)
    (hr : r ∈ d.county_health_rankings)
    (hrm : r.measure_name = some m)
    (hrf : r.fipscode = some c) :
    ((Api.county_data (some p) (some d)).1.status = 200 ∧
      ∃ rows, (Api.county_data (some p) (some d)).1.body = JValue.arr rows ∧
        Api.chrToJson r ∈ rows) ∧
    ((App.county_data (some p) (some d)).1.status = 200 ∧
      ∃ rows, (App.county_data (some p) (some d)).1.body = JValue.arr rows ∧
        App.flaskRowToJson r ∈ rows) := by
  have hcbeq : (c == "") = false := beq_eq_false_iff_ne.mpr hcne
  have hzcMem : zc ∈ Api.zcRows d z := by
    apply List.mem_filter.mpr
    refine ⟨hzc, ?_⟩
    simp [sqlEqParam, hzcz]
  have hzcne : (Api.zcRows d z).isEmpty = false := isEmpty_false_of_mem hzcMem
  have hcMem : c ∈ Api.codes (Api.zcRows d z) := by
    apply List.mem_filterMap.mpr
    refine ⟨zc, hzcMem, ?_⟩
    simp [Api.truthyStr, hcode, hcbeq]
  have hfips : c ∈ Api.fipsCodes (Api.codes (Api.zcRows d z)) := by
    apply (Api.mem_sortDedup _ _).mpr
    apply List.mem_filter.mpr
    exact ⟨hcMem, by simp [hclen]⟩
  have hfipsne : (Api.fipsCodes (Api.codes (Api.zcRows d z))).isEmpty = false :=
    isEmpty_false_of_mem hfips
  have hclauses : Api.hasClauses (Api.states (Api.zcRows d z))
      (Api.countyNames (Api.zcRows d z))
      (Api.fipsCodes (Api.codes (Api.zcRows d z)))
      (Api.cccCodes (Api.codes (Api.zcRows d z))) = true := by
    simp [Api.hasClauses, hfipsne]
  have hrmem : r ∈ Api.queryRows d z m := by
    apply List.mem_filter.mpr
    refine ⟨hr, ?_⟩
    have e1 : sqlEqParam r.measure_name m = true := by simp [sqlEqParam, hrm]
    have e2 : Api.optMem r.fipscode
        (Api.fipsCodes (Api.codes (Api.zcRows d z))) = true := by
      simp only [Api.optMem, hrf]
      exact List.elem_iff.mpr hfips
    simp [Api.chrMatch, e1, e2, hfipsne]
  have hqne : (Api.queryRows d z m).isEmpty = false := isEmpty_false_of_mem hrmem
  constructor
  · rw [Api.api_validated_eval p d z m hc hz hm hzip hmeas]
    rw [if_neg (by simp [hzcne]), if_neg (by simp [hclauses]),
      if_neg (by simp [hqne])]
    exact ⟨rfl, _, rfl, List.mem_map.mpr ⟨r, hrmem, rfl⟩⟩
  · have hzne : z ≠ "" := by
      intro he
      rw [he] at hzip
      exact absurd hzip (by decide)
    have hmne : m ≠ "" := by
      intro he
      rw [he] at hmeas
      exact absurd hmeas (by decide)
    have h1 : pyTruthy (pyGet p "zip") = true := by
      rw [hz]
      simpa [pyTruthy, jTruthy, bne_iff_ne] using hzne
    have h2 : pyTruthy (pyGet p "measure_name") = true := by
      rw [hm]
      simpa [pyTruthy, jTruthy, bne_iff_ne] using hmne
    have h3 : App.is_valid_zip (pyGet p "zip") = true := by
      rw [hz]
      exact reMatchZip5_of_full z hzip
    have h4 : measureAllowed (pyGet p "measure_name") = true := by
      rw [hm]
      simpa [measureAllowed] using hmeas
    have hjoin : r ∈ App.joinRows d (pyGet p "zip") (pyGet p "measure_name") := by
      rw [hz, hm]
      apply List.mem_flatMap.mpr
      refine ⟨r, hr, ?_⟩
      have e1 : sqlEqParamVal r.measure_name (some (JValue.str m)) = true := by
        simp [sqlEqParamVal, hrm]
      rw [if_pos e1]
      apply List.mem_map.mpr
      refine ⟨zc, List.mem_filter.mpr ⟨hzc, ?_⟩, rfl⟩
      simp [sqlEqParamVal, hzcz, sqlEqCols, hrf, hcode]
    have hord : r ∈ App.orderedRows d (pyGet p "zip") (pyGet p "measure_name") := by
      unfold App.orderedRows
      rw [List.mem_insertionSort]
      rw [hz, hm] at hjoin ⊢
      exact hjoin
    have hordne : (App.orderedRows d (pyGet p "zip")
        (pyGet p "measure_name")).isEmpty = false := isEmpty_false_of_mem hord
    rw [App.flask_validated_eval p d hc h1 h2 h3 h4]
    rw [if_neg (by simp [hordne])]
    exact ⟨rfl, _, rfl, List.mem_map.mpr ⟨r, hord, rfl⟩⟩

theorem claim_C2_witness :
    ((Api.county_data (some pReq) (some dbMulti)).1.status = 200 ∧
      ∃ rows, (Api.county_data (some pReq) (some dbMulti)).1.body =
        JValue.arr rows ∧ Api.chrToJson chr25099 ∈ rows) ∧
    ((App.county_data (some pReq) (some dbMulti)).1.status = 200 ∧
      ∃ rows, (App.county_data (some pReq) (some dbMulti)).1.body =
        JValue.arr rows ∧ App.flaskRowToJson chr25099 ∈ rows) :=
  claim_C2_all_counties pReq dbMulti "02138" "Adult obesity" "25099"
    zcOther chr25099 (by decide) rfl rfl (by decide) (by decide) (by decide)
    rfl rfl (by decide) (by decide) (by decide) rfl rfl

/-! ## Claim C8 -/

/-- The reserved words of the SQL dialect the importer targets: the
keyword list of SQLite, the natural reading of the specification
wording "SQL reserved word".  The importer checks only the 26-entry
`SQLITE_KEYWORDS` subset of these. -/
def sqlReservedWords : List String :=
  ["ABORT", "ACTION", "ADD", "AFTER", "ALL", "ALTER", "ALWAYS", "ANALYZE",
   "AND", "AS", "ASC", "ATTACH", "AUTOINCREMENT", "BEFORE", "BEGIN",
   "BETWEEN", "BY", "CASCADE", "CASE", "CAST", "CHECK", "COLLATE", "COLUMN",
   "COMMIT", "CONFLICT", "CONSTRAINT", "CREATE", "CROSS", "CURRENT",
   "CURRENT_DATE", "CURRENT_TIME", "CURRENT_TIMESTAMP", "DATABASE",
   "DEFAULT", "DEFERRABLE", "DEFERRED", "DELETE", "DESC", "DETACH",
   "DISTINCT", "DO", "DROP", "EACH", "ELSE", "END", "ESCAPE", "EXCEPT",
   "EXCLUDE", "EXCLUSIVE", "EXISTS", "EXPLAIN", "FAIL", "FILTER", "FIRST",
   "FOLLOWING", "FOR", "FOREIGN", "FROM", "FULL", "GENERATED", "GLOB",
   "GROUP", "GROUPS", "HAVING", "IF", "IGNORE", "IMMEDIATE", "IN", "INDEX",
   "INDEXED", "INITIALLY", "INNER", "INSERT", "INSTEAD", "INTERSECT",
   "INTO", "IS", "ISNULL", "JOIN", "KEY", "LAST", "LEFT", "LIKE", "LIMIT",
   "MATCH", "MATERIALIZED", "NATURAL", "NO", "NOT", "NOTHING", "NOTNULL",
   "NULL", "NULLS", "OF", "OFFSET", "ON", "OR", "ORDER", "OTHERS", "OUTER",
   "OVER", "PARTITION", "PLAN", "PRAGMA", "PRECEDING", "PRIMARY", "QUERY",
   "RAISE", "RANGE", "RECURSIVE", "REFERENCES", "REGEXP", "REINDEX",
   "RELEASE", "RENAME", "REPLACE", "RESTRICT", "RETURNING", "RIGHT",
   "ROLLBACK", "ROW", "ROWS", "SAVEPOINT", "SELECT", "SET", "TABLE",
   "TEMP", "TEMPORARY", "THEN", "TIES", "TO", "TRANSACTION", "TRIGGER",
   "UNBOUNDED", "UNION", "UNIQUE", "UPDATE", "USING", "VACUUM", "VALUES",
   "VIEW", "VIRTUAL", "WHEN", "WHERE", "WINDOW", "WITH", "WITHOUT"]

/-- A file system with one CSV named after the SQL reserved word END. -/
def fsEnd : String → Option Csv.CsvFile :=
  fun q => if q == "end.csv" then some ⟨some ["a"], [["1"]]⟩ else none

/-- C8 counterexample: the importer checks only its 26-keyword subset, so
it accepts genuine SQL reserved words — `end`, `END`, `set`, `limit` and
`exists` all validate, and `end.csv` imports successfully into a table
named `end` — refuting the claim that a name is accepted only if it is
not a SQL reserved word. -/
theorem claim_C8_counterexample :
    Csv._validate_identifier "end" = true ∧
    Csv._validate_identifier "END" = true ∧
    Csv._validate_identifier "set" = true ∧
    Csv._validate_identifier "limit" = true ∧
    Csv._validate_identifier "exists" = true ∧
    Csv.pyUpper "end" = "END" ∧
    "END" ∈ sqlReservedWords ∧ "SET" ∈ sqlReservedWords ∧
    "LIMIT" ∈ sqlReservedWords ∧ "EXISTS" ∈ sqlReservedWords ∧
    Csv.main ["csv_to_sqlite.py", "data.db", "end.csv"] fsEnd [] =
      (0, [("end", ⟨["a"], [[some "1"]]⟩)]) := by
  decide

/-- The identifier-acceptance policy the importer actually enforces (the
amended claim): non-empty, beginning with a letter or underscore, only
alphanumerics and underscores, and the uppercased name not in the
importer's own 26-entry `SQLITE_KEYWORDS` subset of the SQL reserved
words. -/
def SpecSafeIdent (name : String) : Prop :=
  name.data ≠ [] ∧
  (∀ c, name.data.head? = some c → (Csv.pyIsAlpha c = true ∨ c = '_')) ∧
  (∀ c ∈ name.data, Csv.pyIsAlnum c = true ∨ c = '_') ∧
  Csv.pyUpper name ∉ Csv.SQLITE_KEYWORDS

/-- C8 (amended): every word the importer does blacklist is a genuine SQL
reserved word, and for ASCII candidates — where the embedded character
classes coincide with Python's Unicode `str.isalpha` / `str.isalnum` —
it accepts a name exactly under the amended policy; the check is applied
to the table name derived from the CSV filename and to every stripped
header column, and a failing name aborts the import with exit 4 resp. 5,
leaving the database untouched. -/
theorem claim_C8_identifier_policy :
    (∀ k ∈ Csv.SQLITE_KEYWORDS, k ∈ sqlReservedWords) ∧
    (∀ name : String, name.data.all (fun c => c.toNat ≤ 127) = true →
      (Csv._validate_identifier name = true ↔ SpecSafeIdent name)) ∧
    (∀ (a0 a1 csvPath : String) (fs : String → Option Csv.CsvFile)
       (db : Csv.SqliteDb) (file : Csv.CsvFile),
       fs csvPath = some file →
       (Csv.pathStem csvPath).data.all (fun c => c.toNat ≤ 127) = true →
       Csv._validate_identifier (Csv.pathStem csvPath) = false →
       Csv.main [a0, a1, csvPath] fs db = (4, db)) ∧
    (∀ (a0 a1 csvPath : String) (fs : String → Option Csv.CsvFile)
       (db : Csv.SqliteDb) (fieldnames : List String)
       (records : List (List String)),
       fs csvPath = some ⟨some fieldnames, records⟩ →
       Csv._validate_identifier (Csv.pathStem csvPath) = true →
       fieldnames.all (fun col => col.data.all (fun c => c.toNat ≤ 127)) = true →
       (fieldnames.map Csv.pyStrip).all Csv._validate_identifier = false →
       Csv.main [a0, a1, csvPath] fs db = (5, db)) := by
  refine ⟨by decide, ?_, ?_, ?_⟩
  · intro name _
    simp only [Csv._validate_identifier, SpecSafeIdent]
    cases hd : name.data with
    | nil => simp [hd]
    | cons c cs =>
      simp only [hd]
      rw [Bool.and_eq_true, Bool.and_eq_true]
      constructor
      · rintro ⟨⟨hfirst, hall⟩, hkw⟩
        refine ⟨by simp, ?_, ?_, ?_⟩
        · intro c' hc'
          rw [List.head?_cons, Option.some.injEq] at hc'
          subst hc'
          have hfirst2 : Csv.pyIsAlpha c = true ∨ c = '_' := by
            simpa using hfirst
          exact hfirst2
        · intro x hx
          have hx2 := List.all_eq_true.mp hall x hx
          have hx3 : Csv.pyIsAlnum x = true ∨ x = '_' := by simpa using hx2
          exact hx3
        · intro hmem
          rw [Bool.not_eq_true'] at hkw
          have h2 : Csv.SQLITE_KEYWORDS.contains (Csv.pyUpper name) = true :=
            List.elem_iff.mpr hmem
          rw [h2] at hkw
          exact Bool.noConfusion hkw
      · rintro ⟨hne, hhead, hall, hkw⟩
        refine ⟨⟨?_, ?_⟩, ?_⟩
        · rcases hhead c (by simp) with h | h
          · simp [h]
          · simp [h]
        · apply List.all_eq_true.mpr
          intro x hx
          rcases hall x hx with h | h
          · simp [h]
          · simp [h]
        · rw [Bool.not_eq_true']
          cases hc2 : Csv.SQLITE_KEYWORDS.contains (Csv.pyUpper name) with
          | false => rfl
          | true => exact absurd (List.elem_iff.mp hc2) hkw
  · intro a0 a1 csvPath fs db file hfs _ hbad
    simp [Csv.main, hfs, hbad]
  · intro a0 a1 csvPath fs db fieldnames records hfs ht _ hcols
    simp [Csv.main, hfs, ht, hcols]

/-- A file system with one CSV whose name starts with a digit. -/
def fs1bad : String → Option Csv.CsvFile :=
  fun q => if q == "1bad.csv" then some ⟨some ["col1"], [["x"]]⟩ else none

/-- A file system with one CSV whose second header cell has a space. -/
def fsBadCols : String → Option Csv.CsvFile :=
  fun q =>
    if q == "bad_cols.csv" then some ⟨some ["good", "bad name"], [["a", "b"]]⟩
    else none

theorem claim_C8_witness :
    (Csv._validate_identifier "zip_county" = true ∧ SpecSafeIdent "zip_county") ∧
    Csv._validate_identifier "1bad" = false ∧
    Csv.main ["csv_to_sqlite.py", "data.db", "1bad.csv"] fs1bad [] = (4, []) ∧
    Csv.main ["csv_to_sqlite.py", "data.db", "bad_cols.csv"] fsBadCols [] = (5, []) := by
  have h := claim_C8_identifier_policy
  refine ⟨⟨by decide, (h.2.1 "zip_county" (by decide)).mp (by decide)⟩,
    by decide, ?_, ?_⟩
  · exact h.2.2.1 "csv_to_sqlite.py" "data.db" "1bad.csv" fs1bad []
      ⟨some ["col1"], [["x"]]⟩ rfl (by decide) (by decide)
  · exact h.2.2.2 "csv_to_sqlite.py" "data.db" "bad_cols.csv" fsBadCols []
      ["good", "bad name"] [["a", "b"]] rfl (by decide) (by decide) (by decide)

/-! ## Claim C9 -/

